import Mathlib

/-!
Customer segmentation dashboard: upload gate, upload transport, result presenter.

A shallow embedding of the decision logic of `FileUpload.jsx`, `App.jsx` and
`CustomerSegmentationResults.jsx`, and the properties of it that the
specification states.

Conventions of the embedding:

* JavaScript strings are Lean strings, that is, well-formed strings (no lone
  surrogate); `includes` and `endsWith` are the infix and suffix tests on the
  characters, and `<` and `>` on strings compare the UTF-16 code units.
* Platform functions whose tables are not part of the repository are parameters:
  `lower` is `String.prototype.toLowerCase` in the search filter, `toStr` is
  `ToString` on a JSON value, `numToStr` is `Number::toString` where JavaScript
  leaves plain decimal digits (magnitude from `10^21` in `toFixed`, integers above
  `2^53` in `join`). The upload gate uses the ASCII fold `toLowerCase`, which decides
  the `.csv` suffix test exactly as the platform function does.
* `Array.prototype.sort` places each element in turn before the first already
  placed element against which the callback is negative.
* `toast.error` / `toast.success` calls are returned as values of `Toast`.
* Numbers that the data model declares as non-negative integers are `Nat`;
  `MonetaryValue` and the derived means are exact rationals.
-/

namespace CustomerSegmentation

/-! ## Strings -/

/-- The method `String.prototype.toLowerCase`, on the ASCII letters; used by the
upload gate, whose `.csv` suffix test it decides as the platform function does. -/
def toLowerCase (s : String) : String := ⟨s.data.map Char.toLower⟩

/-- The UTF-16 code units of one character: the character itself below `0x10000`,
and its surrogate pair from there on. -/
def utf16 (c : Char) : List Nat :=
  if c.toNat < 0x10000 then [c.toNat]
  else [0xD800 + (c.toNat - 0x10000) / 0x400, 0xDC00 + (c.toNat - 0x10000) % 0x400]

/-- The UTF-16 code units of a string: the sequence that the operators `<` and `>`
of JavaScript compare. -/
def codeUnits (s : String) : List Nat := (s.data.map utf16).flatten

/-- The method `String.prototype.endsWith`: `t` is a suffix of `s`. -/
def endsWith (s t : String) : Bool := t.data.isSuffixOf s.data

/-- The method `String.prototype.includes`: `t` occurs in `s` as a contiguous block. -/
def includes (s t : String) : Bool := decide (t.data <:+: s.data)

/-! ## Notifications -/

/-- A call of `toast.error` or `toast.success` with its text. -/
inductive Toast where
  | error (text : String)
  | success (text : String)
  deriving DecidableEq, Repr

/-! ## Upload gate (`FileUpload.jsx`) -/

/-- The fields of a browser `File` that `validateFile` reads. -/
structure File where
  name : String
  type : String
  size : Nat
  deriving DecidableEq, Repr

/-- The function `validateFile` of `FileUpload.jsx`: the value returned and the
notification raised on the way. `none` stands for a missing (`null`/`undefined`) file. -/
def validateFile : Option File → Bool × Option Toast
  | none => (false, some (.error "Please select a file"))
  | some file =>
    if file.type ≠ "text/csv" ∧ ¬ endsWith (toLowerCase file.name) ".csv" then
      (false, some (.error "Only CSV files are accepted"))
    else if file.size > 10 * 1024 * 1024 then
      (false, some (.error "File size must be less than 10MB"))
    else
      (true, none)

/-! ## Upload transport (`App.jsx`) -/

/-- A value produced by `response.json()`. A number is the exact value of the
parsed double. An object lists its members in source order. -/
inductive Json where
  | null
  | bool (b : Bool)
  | num (q : Rat)
  | str (s : String)
  | arr (items : List Json)
  | obj (fields : List (String × Json))

/-- A property read `v.key` on a value other than `null`, for a key that no
prototype supplies (such as `message` and `error`); `none` is `undefined`.
When an object repeats a key the last member wins, as in `JSON.parse`. -/
def Json.get : Json → String → Option Json
  | .obj fields, key => (fields.reverse.find? (fun kv => kv.1 == key)).map Prod.snd
  | _, _ => none

/-- JavaScript truthiness of a value read from a parsed body (`none` is `undefined`). -/
def truthy : Option Json → Bool
  | none => false
  | some .null => false
  | some (.bool b) => b
  | some (.num q) => decide (q ≠ 0)
  | some (.str s) => decide (s ≠ "")
  | some (.arr _) => true
  | some (.obj _) => true

/-- The message of `new Error(v)`: the string itself, and for any other value the
platform conversion `toStr` (the ECMAScript `ToString` operation, taken as given). -/
def errorText (toStr : Json → String) : Json → String
  | .str s => s
  | v => toStr v

/-- The `switch (response.status)` table of `handleFileUpload`. -/
def statusMessage (status : Nat) : String :=
  match status with
  | 400 => "Invalid file format or missing required data"
  | 413 => "File size too large"
  | 422 => "Invalid CSV format or missing required columns"
  | 500 => "Server error occurred while processing the file"
  | n => "Server responded with status: " ++ toString n

/-- What `fetch` and the later `response.json()` did: the promise of `fetch`
rejected with an error of the given message, or a response of the given status
arrived whose `json()` either resolves to a value or rejects with an error of the
given message. -/
inductive FetchResult where
  | rejected (message : String)
  | response (status : Nat) (body : Except String Json)

/-- The getter `response.ok`: the status is in the range 200 to 299. -/
def responseOk (status : Nat) : Bool := decide (200 ≤ status ∧ status ≤ 299)

/-- The argument of `throw new Error(errorMessage)` on a response that is not ok
(lines 69 to 94 of `App.jsx`). Reading a property of `null` throws inside the
inner `try`, and is caught like a body that fails to parse. -/
def errorMessage (toStr : Json → String) (status : Nat) : Except String Json → String
  | .error _ => statusMessage status
  | .ok .null => statusMessage status
  | .ok errorData =>
    if truthy (errorData.get "message") then
      errorText toStr ((errorData.get "message").getD .null)
    else if truthy (errorData.get "error") then
      errorText toStr ((errorData.get "error").getD .null)
    else
      "Failed to process file"

/-- The body of the outer `try` of `handleFileUpload`: the parsed payload, or the
message of the error that reaches the outer `catch`. -/
def tryUpload (toStr : Json → String) : FetchResult → Except String Json
  | .rejected message => .error message
  | .response status body =>
    if ¬ responseOk status then
      .error (errorMessage toStr status body)
    else
      body

/-- The state of `App`. -/
structure AppState where
  segmentationResults : Option Json
  isLoading : Bool

/-- The function `handleFileUpload` of `App.jsx` as a transition: the state after
the `finally` block and the notification raised. -/
def handleFileUpload (toStr : Json → String) (s : AppState) (r : FetchResult) :
    AppState × Toast :=
  let s1 : AppState := { s with isLoading := true }
  match tryUpload toStr r with
  | .ok data =>
    ({ segmentationResults := some data, isLoading := false },
      .success "File processed successfully!")
  | .error message =>
    ({ s1 with isLoading := false },
      .error (if message ≠ "" then message
              else "An error occurred while processing the file"))

/-! ## Result presenter (`CustomerSegmentationResults.jsx`) -/

/-- The member `rfm_values` of a classification record. -/
structure RfmValues where
  MonetaryValue : Rat
  Frequency : Nat
  Recency : Nat
  deriving DecidableEq

/-- One classification record of the `results` array. -/
structure Customer where
  customer_id : String
  predicted_cluster_id : Nat
  cluster_name : String
  rfm_values : RfmValues
  cluster_interpretation : String
  cluster_recommendations : List String
  deriving DecidableEq

/-- An entry of `stats` while `results.forEach` runs (lines 66 to 81). -/
structure ClusterTotals where
  count : Nat
  totalMonetary : Rat
  totalFrequency : Nat
  totalRecency : Nat
  name : String
  deriving DecidableEq

/-- An entry of `stats` as `getClusterStats` returns it. -/
structure ClusterStats extends ClusterTotals where
  avgMonetary : Rat
  avgFrequency : Rat
  avgRecency : Rat
  deriving DecidableEq

/-- The body of the `results.forEach` callback of `getClusterStats`: create the
entry of the cluster when `stats[clusterId]` is missing, then add the record to it.
The object `stats` is a list of key and entry pairs. -/
def addCustomer (stats : List (Nat × ClusterTotals)) (customer : Customer) :
    List (Nat × ClusterTotals) :=
  let clusterId := customer.predicted_cluster_id
  let stats :=
    if (stats.lookup clusterId).isNone then
      stats ++ [(clusterId,
        { count := 0, totalMonetary := 0, totalFrequency := 0, totalRecency := 0,
          name := customer.cluster_name })]
    else stats
  stats.map fun entry =>
    if entry.1 = clusterId then
      (entry.1,
        { entry.2 with
          count := entry.2.count + 1
          totalMonetary := entry.2.totalMonetary + customer.rfm_values.MonetaryValue
          totalFrequency := entry.2.totalFrequency + customer.rfm_values.Frequency
          totalRecency := entry.2.totalRecency + customer.rfm_values.Recency })
    else entry

/-- The body of the `Object.keys(stats).forEach` callback: the three means. -/
def withAverages (cluster : ClusterTotals) : ClusterStats :=
  { cluster with
    avgMonetary := cluster.totalMonetary / cluster.count
    avgFrequency := cluster.totalFrequency / cluster.count
    avgRecency := cluster.totalRecency / cluster.count }

/-- The function `getClusterStats`. -/
def getClusterStats (results : List Customer) : List (Nat × ClusterStats) :=
  (results.foldl addCustomer []).map fun entry => (entry.1, withAverages entry.2)

/-- The entry that the `forEach` callback leaves for the cluster of the record. -/
def addTo (customer : Customer) (t : ClusterTotals) : ClusterTotals :=
  { t with
    count := t.count + 1
    totalMonetary := t.totalMonetary + customer.rfm_values.MonetaryValue
    totalFrequency := t.totalFrequency + customer.rfm_values.Frequency
    totalRecency := t.totalRecency + customer.rfm_values.Recency }

/-- The entry that the `forEach` callback creates for a cluster not yet seen. -/
def newTotals (customer : Customer) : ClusterTotals :=
  { count := 0, totalMonetary := 0, totalFrequency := 0, totalRecency := 0,
    name := customer.cluster_name }

/-- The effect of one record on the entry of cluster `id`. -/
def stepEntry (id : Nat) (o : Option ClusterTotals) (customer : Customer) :
    Option ClusterTotals :=
  if id = customer.predicted_cluster_id then
    some (addTo customer (o.getD (newTotals customer)))
  else o

/-- The value a sort key selects from a record: a string as its UTF-16 code units,
a number, or `undefined` when `sortBy` is none of the five keys. -/
inductive SortValue where
  | text (units : List Nat)
  | number (q : Rat)
  | undefined
  deriving DecidableEq

/-- The operator `>` on two values selected by the same key (a comparison with
`undefined` is false). -/
def SortValue.gt : SortValue → SortValue → Bool
  | .text a, .text b => decide (a > b)
  | .number a, .number b => decide (a > b)
  | _, _ => false

/-- The operator `<` on two values selected by the same key. -/
def SortValue.lt : SortValue → SortValue → Bool
  | .text a, .text b => decide (a < b)
  | .number a, .number b => decide (a < b)
  | _, _ => false

/-- The `if (sortBy === ...)` chain of the sort callback, for one record. -/
def sortValue (sortBy : String) (c : Customer) : SortValue :=
  if sortBy = "customer_id" then .text (codeUnits c.customer_id)
  else if sortBy = "cluster" then .number c.predicted_cluster_id
  else if sortBy = "monetary" then .number c.rfm_values.MonetaryValue
  else if sortBy = "frequency" then .number c.rfm_values.Frequency
  else if sortBy = "recency" then .number c.rfm_values.Recency
  else .undefined

/-- The callback given to `.sort` (lines 103 to 128). -/
def compareFn (sortBy sortOrder : String) (a b : Customer) : Int :=
  let aValue := sortValue sortBy a
  let bValue := sortValue sortBy b
  if sortOrder = "asc" then
    if aValue.gt bValue then 1 else -1
  else
    if aValue.lt bValue then 1 else -1

/-- The method `Array.prototype.sort` with a comparison callback, as an insertion
sort: the elements are taken in array order and each is placed before the first
already placed element `e` with `cmp x e < 0`, and last when there is none. (The
language leaves the order of elements that the callback does not separate to the
engine; two records tied under `compareFn` come out with the later one first.) -/
def arraySort {α : Type} (cmp : α → α → Int) (l : List α) : List α :=
  l.foldl (fun placed x => placed.orderedInsert (fun a b => cmp a b < 0) x) []

/-- The array `filteredCustomers` (lines 97 to 128); `lower` is
`String.prototype.toLowerCase` and `none` is `selectedCluster === null`. -/
def filteredCustomers (lower : String → String) (results : List Customer)
    (searchTerm : String) (selectedCluster : Option Nat) (sortBy sortOrder : String) :
    List Customer :=
  arraySort (compareFn sortBy sortOrder)
    (results.filter fun customer =>
      let matchesSearch :=
        includes (lower customer.customer_id) (lower searchTerm)
      let matchesCluster :=
        selectedCluster = none || some customer.predicted_cluster_id = selectedCluster
      matchesSearch && matchesCluster)

/-- The condition of line 316 under which "No customers found matching your
criteria." is rendered. -/
def noCustomersFound (filtered : List Customer) : Bool := filtered.length == 0

/-- The `onClick` handler of a cluster card (line 187), for the card of cluster
`clusterId`; `none` is `null`. -/
def clickCluster (selectedCluster : Option Nat) (clusterId : Nat) : Option Nat :=
  if selectedCluster = some clusterId then none else some clusterId

/-- The method `Number.prototype.toFixed(2)`: the sign, then for a magnitude from
`10^21` on the platform conversion `numToStr` of the magnitude (exponent notation),
and below it the integer nearest to `|x| * 100` (the larger one on a tie) written
with its last two digits after the point. -/
def toFixed2 (numToStr : Rat → String) (x : Rat) : String :=
  let s := if x < 0 then "-" else ""
  let m :=
    if 10 ^ 21 ≤ |x| then numToStr |x|
    else
      let n : Nat := (⌊|x| * 100 + 1 / 2⌋).toNat
      toString (n / 100) ++ "." ++ toString (n % 100 / 10) ++ toString (n % 10)
  s ++ m

/-- The string that `row.join` writes for a number that is a non-negative integer:
its decimal digits up to `2^53`, and the platform conversion `numToStr` beyond. -/
def numberText (numToStr : Rat → String) (n : Nat) : String :=
  if n ≤ 2 ^ 53 then toString n else numToStr n

/-- The array `headers` of `downloadCSV`. -/
def headers : List String :=
  ["Customer ID", "Cluster ID", "Cluster Name", "Monetary Value", "Frequency",
    "Recency", "Cluster Interpretation", "Recommendations"]

/-- The row that `data.map` builds for one record (lines 27 to 36), each cell as the
string that `row.join` writes for it. -/
def csvRow (numToStr : Rat → String) (customer : Customer) : List String :=
  [customer.customer_id,
    numberText numToStr customer.predicted_cluster_id,
    customer.cluster_name,
    toFixed2 numToStr customer.rfm_values.MonetaryValue,
    numberText numToStr customer.rfm_values.Frequency,
    numberText numToStr customer.rfm_values.Recency,
    "\"" ++ customer.cluster_interpretation ++ "\"",
    "\"" ++ "; ".intercalate customer.cluster_recommendations ++ "\""]

/-- The text `csvContent` of `downloadCSV`; `none` is a `dataToDownload` left at its
default `null` (an array, even an empty one, is truthy). -/
def downloadCSV (numToStr : Rat → String) (results : List Customer)
    (dataToDownload : Option (List Customer)) : String :=
  let data := dataToDownload.getD results
  let csvData := data.map (csvRow numToStr)
  "\n".intercalate ((headers :: csvData).map fun row => ",".intercalate row)

/-! ## Upload gate: properties -/

/-- C1 (as stated, refuted): a file of 10 MiB + 1 bytes named `a.txt` with type
`text/plain` is rejected with "Only CSV files are accepted", not with the
size message. -/
theorem validateFile_large_wrong_format :
    validateFile (some ⟨"a.txt", "text/plain", 10 * 1024 * 1024 + 1⟩)
        = (false, some (.error "Only CSV files are accepted"))
      ∧ validateFile (some ⟨"a.txt", "text/plain", 10 * 1024 * 1024 + 1⟩)
        ≠ (false, some (.error "File size must be less than 10MB")) := by
  decide

/-- C1 (amended): a provided file larger than 10 MiB is always rejected; the
notification is "File size must be less than 10MB" when the file passes the
format check (type `text/csv` or a name ending in `.csv` in any letter case) and
"Only CSV files are accepted" when it does not. -/
theorem validateFile_too_large (file : File) (h : file.size > 10 * 1024 * 1024) :
    (validateFile (some file)).1 = false
      ∧ ((file.type = "text/csv" ∨ endsWith (toLowerCase file.name) ".csv" = true) →
          validateFile (some file)
            = (false, some (.error "File size must be less than 10MB")))
      ∧ (¬ (file.type = "text/csv" ∨ endsWith (toLowerCase file.name) ".csv" = true) →
          validateFile (some file)
            = (false, some (.error "Only CSV files are accepted"))) := by
  by_cases hf : file.type ≠ "text/csv" ∧ ¬ endsWith (toLowerCase file.name) ".csv"
  · have e : validateFile (some file)
        = (false, some (.error "Only CSV files are accepted")) := by
      simp only [validateFile, if_pos hf]
    rw [e]
    refine ⟨rfl, ?_, fun _ => rfl⟩
    rintro (h1 | h2)
    · exact absurd h1 hf.1
    · exact absurd h2 hf.2
  · have e : validateFile (some file)
        = (false, some (.error "File size must be less than 10MB")) := by
      simp only [validateFile, if_neg hf, if_pos h]
    rw [e]
    refine ⟨rfl, fun _ => rfl, ?_⟩
    intro hn
    exfalso
    apply hf
    constructor
    · exact fun h1 => hn (Or.inl h1)
    · exact fun h2 => hn (Or.inr h2)

/-- Witness for C1 (amended): `big.CSV` of 10 MiB + 1 bytes. -/
theorem validateFile_too_large_witness :
    (⟨"big.CSV", "", 10 * 1024 * 1024 + 1⟩ : File).size > 10 * 1024 * 1024
      ∧ validateFile (some ⟨"big.CSV", "", 10 * 1024 * 1024 + 1⟩)
        = (false, some (.error "File size must be less than 10MB")) :=
  ⟨by decide,
    (validateFile_too_large ⟨"big.CSV", "", 10 * 1024 * 1024 + 1⟩ (by decide)).2.1
      (Or.inr (by decide))⟩

/-- C8: a provided file whose name does not end in `.csv` (compared after lower-casing)
and whose declared type is not `text/csv` is rejected with
"Only CSV files are accepted", whatever its size. -/
theorem validateFile_wrong_format (file : File)
    (hname : endsWith (toLowerCase file.name) ".csv" = false)
    (htype : file.type ≠ "text/csv") :
    validateFile (some file) = (false, some (.error "Only CSV files are accepted")) := by
  have hf : file.type ≠ "text/csv" ∧ ¬ endsWith (toLowerCase file.name) ".csv" :=
    ⟨htype, by simp [hname]⟩
  simp only [validateFile, if_pos hf]

/-- Witness for C8: `notes.txt` of type `text/plain`, 3 bytes. -/
theorem validateFile_wrong_format_witness :
    validateFile (some ⟨"notes.txt", "text/plain", 3⟩)
      = (false, some (.error "Only CSV files are accepted")) :=
  validateFile_wrong_format ⟨"notes.txt", "text/plain", 3⟩ (by decide) (by decide)

/-! ## Upload transport: properties -/

/-- The status table written out as a chain of tests. -/
theorem statusMessage_eq (status : Nat) :
    statusMessage status =
      if status = 400 then "Invalid file format or missing required data"
      else if status = 413 then "File size too large"
      else if status = 422 then "Invalid CSV format or missing required columns"
      else if status = 500 then "Server error occurred while processing the file"
      else "Server responded with status: " ++ toString status := by
  unfold statusMessage
  split <;> simp_all

/-- No entry of the status table is the empty string. -/
theorem statusMessage_ne_empty (status : Nat) : statusMessage status ≠ "" := by
  intro h
  have hlen : (statusMessage status).length = 0 := by rw [h]; rfl
  rw [statusMessage_eq] at hlen
  split_ifs at hlen
  · exact absurd hlen (by decide)
  · exact absurd hlen (by decide)
  · exact absurd hlen (by decide)
  · exact absurd hlen (by decide)
  · rw [String.length_append] at hlen
    have : ("Server responded with status: " : String).length = 30 := by decide
    omega

/-- The notification of a failed upload whose error message is not empty. -/
theorem handleFileUpload_error (toStr : Json → String) (s : AppState) (r : FetchResult)
    (message : String) (h : tryUpload toStr r = .error message) (hne : message ≠ "") :
    (handleFileUpload toStr s r).2 = .error message := by
  simp only [handleFileUpload, h, if_pos hne]

/-- C2 (as stated, refuted): a 400 response with body `{"message": ""}` surfaces
"Failed to process file", not the empty `message`. -/
theorem handleFileUpload_empty_message :
    (handleFileUpload (fun _ => "") ⟨none, false⟩
        (.response 400 (.ok (.obj [("message", .str "")])))).2
        = .error "Failed to process file"
      ∧ (handleFileUpload (fun _ => "") ⟨none, false⟩
        (.response 400 (.ok (.obj [("message", .str "")])))).2
        ≠ .error "" := by
  decide

/-- C2 (amended): for a response that is not ok whose body parses as a JSON object
with a `message` member that is a non-empty string, the error notification carries
exactly that string. -/
theorem handleFileUpload_json_message (toStr : Json → String) (s : AppState)
    (status : Nat) (fields : List (String × Json)) (message : String)
    (hstatus : responseOk status = false)
    (hfield : (Json.obj fields).get "message" = some (.str message))
    (hne : message ≠ "") :
    (handleFileUpload toStr s (.response status (.ok (.obj fields)))).2
      = .error message := by
  apply handleFileUpload_error _ _ _ _ _ hne
  have ht : truthy (some (.str message)) = true := by
    simp [truthy, hne]
  simp only [tryUpload, hstatus, errorMessage, hfield, ht]
  simp [errorText]

/-- Witness for C2 (amended): a 422 response with body
`{"error": "x", "message": "Missing column: Price"}`. -/
theorem handleFileUpload_json_message_witness :
    (handleFileUpload (fun _ => "") ⟨none, false⟩
        (.response 422 (.ok (.obj [("error", .str "x"),
          ("message", .str "Missing column: Price")])))).2
      = .error "Missing column: Price" :=
  handleFileUpload_json_message (fun _ => "") ⟨none, false⟩ 422
    [("error", .str "x"), ("message", .str "Missing column: Price")]
    "Missing column: Price" (by decide) (by rfl) (by decide)

/-- C7: for a response that is not ok whose body does not parse as JSON, the error
notification is the table entry of the status code: the four fixed texts for 400,
413, 422 and 500, and "Server responded with status: N" for any other status N. -/
theorem handleFileUpload_non_json (toStr : Json → String) (s : AppState)
    (status : Nat) (parseError : String) (hstatus : responseOk status = false) :
    (handleFileUpload toStr s (.response status (.error parseError))).2
      = .error
        (if status = 400 then "Invalid file format or missing required data"
         else if status = 413 then "File size too large"
         else if status = 422 then "Invalid CSV format or missing required columns"
         else if status = 500 then "Server error occurred while processing the file"
         else "Server responded with status: " ++ toString status) := by
  rw [← statusMessage_eq]
  apply handleFileUpload_error _ _ _ _ _ (statusMessage_ne_empty status)
  simp only [tryUpload, hstatus, errorMessage]
  simp

/-- Witness for C7: a 503 response whose body is not JSON. -/
theorem handleFileUpload_non_json_witness :
    (handleFileUpload (fun _ => "") ⟨none, false⟩
        (.response 503 (.error "Unexpected token < in JSON at position 0"))).2
      = .error "Server responded with status: 503" :=
  handleFileUpload_non_json (fun _ => "") ⟨none, false⟩ 503
    "Unexpected token < in JSON at position 0" (by decide)

/-! ## Result presenter: focus, filter and sort -/

/-- C9: a click on the card of cluster `c` clears the focus when `c` is focused and
focuses `c` otherwise; from no focus, clicking 2 twice gives no focus again, and
clicking 2 then 3 gives focus 3. -/
theorem clickCluster_toggle :
    (∀ (s : Option Nat) (c : Nat),
        (s = some c → clickCluster s c = none) ∧ (s ≠ some c → clickCluster s c = some c))
      ∧ clickCluster (clickCluster none 2) 2 = none
      ∧ clickCluster (clickCluster none 2) 3 = some 3 := by
  refine ⟨fun s c => ⟨fun h => ?_, fun h => ?_⟩, by decide, by decide⟩
  · simp [clickCluster, h]
  · simp [clickCluster, h]

/-- The filter callback of `filteredCustomers` as a proposition on one record. -/
theorem filter_callback_iff (lower : String → String) (searchTerm : String) (selectedCluster : Option Nat)
    (customer : Customer) :
    ((includes (lower customer.customer_id) (lower searchTerm)
        && (selectedCluster = none || some customer.predicted_cluster_id = selectedCluster))
        = true)
      ↔ (includes (lower customer.customer_id) (lower searchTerm) = true
          ∧ (selectedCluster = none
              ∨ selectedCluster = some customer.predicted_cluster_id)) := by
  simp only [Bool.and_eq_true, Bool.or_eq_true, decide_eq_true_eq]
  constructor
  · rintro ⟨h1, h2 | h2⟩
    · exact ⟨h1, Or.inl h2⟩
    · exact ⟨h1, Or.inr h2.symm⟩
  · rintro ⟨h1, h2 | h2⟩
    · exact ⟨h1, Or.inl h2⟩
    · exact ⟨h1, Or.inr h2.symm⟩

/-- Every string includes the empty string. -/
theorem includes_empty (s : String) : includes s "" = true := by
  simp [includes]

/-- Insertion sort as a right fold. -/
theorem insertionSort_eq_foldr {α : Type} (r : α → α → Prop) [DecidableRel r]
    (l : List α) :
    l.insertionSort r = l.foldr (fun x placed => placed.orderedInsert r x) [] := by
  induction l with
  | nil => rfl
  | cons a l ih => rw [List.insertionSort, List.foldr_cons, ih]

/-- The method `arraySort` is the insertion sort of the input read from its end,
under the relation "the callback is negative". -/
theorem arraySort_eq {α : Type} (cmp : α → α → Int) (l : List α) :
    arraySort cmp l = l.reverse.insertionSort (fun a b => cmp a b < 0) := by
  rw [insertionSort_eq_foldr, List.foldr_reverse]
  rfl

/-- The method `arraySort` permutes its input. -/
theorem arraySort_perm {α : Type} (cmp : α → α → Int) (l : List α) :
    (arraySort cmp l).Perm l := by
  rw [arraySort_eq]
  exact (List.perm_insertionSort _ _).trans (List.reverse_perm l)

/-- Membership in `filteredCustomers`: the records of the input that pass the filter. -/
theorem mem_filteredCustomers (lower : String → String) (results : List Customer)
    (searchTerm : String) (selectedCluster : Option Nat) (sortBy sortOrder : String)
    (c : Customer) :
    c ∈ filteredCustomers lower results searchTerm selectedCluster sortBy sortOrder
      ↔ c ∈ results
        ∧ includes (lower c.customer_id) (lower searchTerm) = true
        ∧ (selectedCluster = none ∨ selectedCluster = some c.predicted_cluster_id) := by
  unfold filteredCustomers
  rw [(arraySort_perm _ _).mem_iff, List.mem_filter, filter_callback_iff]

/-- C5: for the platform's lower-casing `lower`, `filteredCustomers` is a permutation
of the records of the input whose lower-cased `customer_id` includes the lower-cased
search term and whose cluster is the pinned one when a cluster is pinned; a record is
in the output iff it is such a record of the input; with the empty search term (which
lower-cases to itself) and no pin the output is a permutation of the whole input. -/
theorem filteredCustomers_perm (lower : String → String) (results : List Customer)
    (searchTerm : String) (selectedCluster : Option Nat) (sortBy sortOrder : String) :
    List.Perm
        (filteredCustomers lower results searchTerm selectedCluster sortBy sortOrder)
        (results.filter fun c =>
          decide (includes (lower c.customer_id) (lower searchTerm) = true
            ∧ (selectedCluster = none ∨ selectedCluster = some c.predicted_cluster_id)))
      ∧ (∀ c,
          c ∈ filteredCustomers lower results searchTerm selectedCluster sortBy sortOrder
          ↔ c ∈ results
            ∧ includes (lower c.customer_id) (lower searchTerm) = true
            ∧ (selectedCluster = none ∨ selectedCluster = some c.predicted_cluster_id))
      ∧ (lower "" = "" →
          List.Perm (filteredCustomers lower results "" none sortBy sortOrder) results) := by
  refine ⟨?_, ?_, ?_⟩
  · unfold filteredCustomers
    refine (arraySort_perm _ _).trans (List.Perm.of_eq ?_)
    apply List.filter_congr
    intro c _
    rw [Bool.eq_iff_iff, filter_callback_iff]
    simp
  · exact mem_filteredCustomers lower results searchTerm selectedCluster sortBy sortOrder
  · intro hl
    unfold filteredCustomers
    refine (arraySort_perm _ _).trans (List.Perm.of_eq ?_)
    rw [List.filter_eq_self]
    intro c _
    rw [filter_callback_iff, hl]
    exact ⟨includes_empty _, Or.inl rfl⟩

/-- Witness for C5: two records, the empty search term and no pinned cluster, with
the ASCII fold for `lower`. -/
theorem filteredCustomers_perm_witness :
    List.Perm
      (filteredCustomers toLowerCase
        [⟨"b2", 1, "At-Risk & Dormant", ⟨10, 1, 200⟩, "", []⟩,
          ⟨"A1", 0, "Loyal & Engaged", ⟨5000, 7, 30⟩, "", []⟩]
        "" none "customer_id" "asc")
      [⟨"b2", 1, "At-Risk & Dormant", ⟨10, 1, 200⟩, "", []⟩,
        ⟨"A1", 0, "Loyal & Engaged", ⟨5000, 7, 30⟩, "", []⟩] :=
  (filteredCustomers_perm toLowerCase
    [⟨"b2", 1, "At-Risk & Dormant", ⟨10, 1, 200⟩, "", []⟩,
      ⟨"A1", 0, "Loyal & Engaged", ⟨5000, 7, 30⟩, "", []⟩]
    "" none "customer_id" "asc").2.2 rfl

/-- The output of `arraySort` is ordered by a key when the callback is negative
exactly on the pairs whose keys are in order. -/
theorem arraySort_pairwise_le {α β : Type} [LinearOrder β] (f : α → β)
    (cmp : α → α → Int) (h : ∀ a b, cmp a b < 0 ↔ f a ≤ f b) (l : List α) :
    (arraySort cmp l).Pairwise (fun a b => f a ≤ f b) := by
  rw [arraySort_eq]
  haveI : IsTotal α (fun a b => cmp a b < 0) :=
    ⟨fun a b => by simp only [h]; exact le_total _ _⟩
  haveI : IsTrans α (fun a b => cmp a b < 0) :=
    ⟨fun a b c h1 h2 => by simp only [h] at *; exact le_trans h1 h2⟩
  exact (List.sorted_insertionSort (fun a b => cmp a b < 0) l.reverse).imp
    (fun hab => (h _ _).1 hab)

/-- The output of `arraySort` is ordered downwards by a key when the callback is
negative exactly on the pairs whose keys are in reverse order. -/
theorem arraySort_pairwise_ge {α β : Type} [LinearOrder β] (f : α → β)
    (cmp : α → α → Int) (h : ∀ a b, cmp a b < 0 ↔ f b ≤ f a) (l : List α) :
    (arraySort cmp l).Pairwise (fun a b => f b ≤ f a) := by
  rw [arraySort_eq]
  haveI : IsTotal α (fun a b => cmp a b < 0) :=
    ⟨fun a b => by simp only [h]; exact le_total _ _⟩
  haveI : IsTrans α (fun a b => cmp a b < 0) :=
    ⟨fun a b c h1 h2 => by simp only [h] at *; exact le_trans h2 h1⟩
  exact (List.sorted_insertionSort (fun a b => cmp a b < 0) l.reverse).imp
    (fun hab => (h _ _).1 hab)

/-- In ascending order the callback is negative iff `aValue > bValue` fails. -/
theorem compareFn_asc_iff (sortBy : String) (a b : Customer) :
    compareFn sortBy "asc" a b < 0
      ↔ (sortValue sortBy a).gt (sortValue sortBy b) = false := by
  simp only [compareFn, if_true]
  cases (sortValue sortBy a).gt (sortValue sortBy b) <;> simp

/-- In any other order the callback is negative iff `aValue < bValue` fails. -/
theorem compareFn_desc_iff (sortBy sortOrder : String) (h : sortOrder ≠ "asc")
    (a b : Customer) :
    compareFn sortBy sortOrder a b < 0
      ↔ (sortValue sortBy a).lt (sortValue sortBy b) = false := by
  simp only [compareFn, if_neg h]
  cases (sortValue sortBy a).lt (sortValue sortBy b) <;> simp

theorem sortValue_customer_id (c : Customer) :
    sortValue "customer_id" c = .text (codeUnits c.customer_id) := rfl

theorem sortValue_cluster (c : Customer) :
    sortValue "cluster" c = .number c.predicted_cluster_id := rfl

theorem sortValue_monetary (c : Customer) :
    sortValue "monetary" c = .number c.rfm_values.MonetaryValue := rfl

theorem sortValue_frequency (c : Customer) :
    sortValue "frequency" c = .number c.rfm_values.Frequency := rfl

theorem sortValue_recency (c : Customer) :
    sortValue "recency" c = .number c.rfm_values.Recency := rfl

/-- C4: for the platform's lower-casing `lower`, every record of `filteredCustomers`
has a `customer_id` that includes the search term after lower-casing both, and for
each of the five sort keys the output is non-decreasing in the key when `sortOrder`
is `asc` and non-increasing when it is `desc`; `customer_id` is ordered as JavaScript
orders strings, by UTF-16 code units. -/
theorem filteredCustomers_sorted (lower : String → String) (results : List Customer)
    (searchTerm : String) (selectedCluster : Option Nat) (sortBy sortOrder : String) :
    (∀ c ∈ filteredCustomers lower results searchTerm selectedCluster sortBy sortOrder,
        includes (lower c.customer_id) (lower searchTerm) = true)
      ∧ (sortOrder = "asc" →
          (sortBy = "customer_id" →
            (filteredCustomers lower results searchTerm selectedCluster sortBy
              sortOrder).Pairwise
              fun a b => codeUnits a.customer_id ≤ codeUnits b.customer_id)
          ∧ (sortBy = "cluster" →
            (filteredCustomers lower results searchTerm selectedCluster sortBy
              sortOrder).Pairwise
              fun a b => a.predicted_cluster_id ≤ b.predicted_cluster_id)
          ∧ (sortBy = "monetary" →
            (filteredCustomers lower results searchTerm selectedCluster sortBy
              sortOrder).Pairwise
              fun a b => a.rfm_values.MonetaryValue ≤ b.rfm_values.MonetaryValue)
          ∧ (sortBy = "frequency" →
            (filteredCustomers lower results searchTerm selectedCluster sortBy
              sortOrder).Pairwise
              fun a b => a.rfm_values.Frequency ≤ b.rfm_values.Frequency)
          ∧ (sortBy = "recency" →
            (filteredCustomers lower results searchTerm selectedCluster sortBy
              sortOrder).Pairwise
              fun a b => a.rfm_values.Recency ≤ b.rfm_values.Recency))
      ∧ (sortOrder = "desc" →
          (sortBy = "customer_id" →
            (filteredCustomers lower results searchTerm selectedCluster sortBy
              sortOrder).Pairwise
              fun a b => codeUnits b.customer_id ≤ codeUnits a.customer_id)
          ∧ (sortBy = "cluster" →
            (filteredCustomers lower results searchTerm selectedCluster sortBy
              sortOrder).Pairwise
              fun a b => b.predicted_cluster_id ≤ a.predicted_cluster_id)
          ∧ (sortBy = "monetary" →
            (filteredCustomers lower results searchTerm selectedCluster sortBy
              sortOrder).Pairwise
              fun a b => b.rfm_values.MonetaryValue ≤ a.rfm_values.MonetaryValue)
          ∧ (sortBy = "frequency" →
            (filteredCustomers lower results searchTerm selectedCluster sortBy
              sortOrder).Pairwise
              fun a b => b.rfm_values.Frequency ≤ a.rfm_values.Frequency)
          ∧ (sortBy = "recency" →
            (filteredCustomers lower results searchTerm selectedCluster sortBy
              sortOrder).Pairwise
              fun a b => b.rfm_values.Recency ≤ a.rfm_values.Recency)) := by
  refine ⟨?_, ?_, ?_⟩
  · intro c hc
    exact ((mem_filteredCustomers lower results searchTerm selectedCluster sortBy
      sortOrder c).1 hc).2.1
  · intro ho
    subst ho
    refine ⟨?_, ?_, ?_, ?_, ?_⟩ <;> intro hk <;> subst hk <;> unfold filteredCustomers
    · exact arraySort_pairwise_le (fun c : Customer => codeUnits c.customer_id)
        (compareFn "customer_id" "asc")
        (fun a b => by
          rw [compareFn_asc_iff, sortValue_customer_id, sortValue_customer_id]
          simp [SortValue.gt]) _
    · exact arraySort_pairwise_le (fun c : Customer => c.predicted_cluster_id)
        (compareFn "cluster" "asc")
        (fun a b => by
          rw [compareFn_asc_iff, sortValue_cluster, sortValue_cluster]
          simp [SortValue.gt]) _
    · exact arraySort_pairwise_le (fun c : Customer => c.rfm_values.MonetaryValue)
        (compareFn "monetary" "asc")
        (fun a b => by
          rw [compareFn_asc_iff, sortValue_monetary, sortValue_monetary]
          simp [SortValue.gt]) _
    · exact arraySort_pairwise_le (fun c : Customer => c.rfm_values.Frequency)
        (compareFn "frequency" "asc")
        (fun a b => by
          rw [compareFn_asc_iff, sortValue_frequency, sortValue_frequency]
          simp [SortValue.gt]) _
    · exact arraySort_pairwise_le (fun c : Customer => c.rfm_values.Recency)
        (compareFn "recency" "asc")
        (fun a b => by
          rw [compareFn_asc_iff, sortValue_recency, sortValue_recency]
          simp [SortValue.gt]) _
  · intro ho
    subst ho
    have hd : ("desc" : String) ≠ "asc" := by decide
    refine ⟨?_, ?_, ?_, ?_, ?_⟩ <;> intro hk <;> subst hk <;> unfold filteredCustomers
    · exact arraySort_pairwise_ge (fun c : Customer => codeUnits c.customer_id)
        (compareFn "customer_id" "desc")
        (fun a b => by
          rw [compareFn_desc_iff _ _ hd, sortValue_customer_id, sortValue_customer_id]
          simp [SortValue.lt]) _
    · exact arraySort_pairwise_ge (fun c : Customer => c.predicted_cluster_id)
        (compareFn "cluster" "desc")
        (fun a b => by
          rw [compareFn_desc_iff _ _ hd, sortValue_cluster, sortValue_cluster]
          simp [SortValue.lt]) _
    · exact arraySort_pairwise_ge (fun c : Customer => c.rfm_values.MonetaryValue)
        (compareFn "monetary" "desc")
        (fun a b => by
          rw [compareFn_desc_iff _ _ hd, sortValue_monetary, sortValue_monetary]
          simp [SortValue.lt]) _
    · exact arraySort_pairwise_ge (fun c : Customer => c.rfm_values.Frequency)
        (compareFn "frequency" "desc")
        (fun a b => by
          rw [compareFn_desc_iff _ _ hd, sortValue_frequency, sortValue_frequency]
          simp [SortValue.lt]) _
    · exact arraySort_pairwise_ge (fun c : Customer => c.rfm_values.Recency)
        (compareFn "recency" "desc")
        (fun a b => by
          rw [compareFn_desc_iff _ _ hd, sortValue_recency, sortValue_recency]
          simp [SortValue.lt]) _

/-! ## Result presenter: cluster statistics -/

/-- Looking a key up after the values were mapped. -/
theorem lookup_map_value {β γ : Type} (f : β → γ) (l : List (Nat × β)) (k : Nat) :
    (l.map fun e => (e.1, f e.2)).lookup k = (l.lookup k).map f := by
  induction l with
  | nil => rfl
  | cons e l ih =>
    obtain ⟨k', v⟩ := e
    simp only [List.map_cons, List.lookup_cons]
    cases k == k' <;> simp [ih]

/-- Looking a key up after the entries of one key were updated. -/
theorem lookup_map_update {β : Type} (upd : β → β) (cid : Nat) (l : List (Nat × β))
    (k : Nat) :
    (l.map fun e => if e.1 = cid then (e.1, upd e.2) else e).lookup k
      = if k = cid then (l.lookup k).map upd else l.lookup k := by
  induction l with
  | nil => simp
  | cons e l ih =>
    obtain ⟨k', v⟩ := e
    by_cases hk : k = k'
    · subst hk
      by_cases hc : k = cid
      · simp [List.lookup_cons, hc]
      · simp [List.lookup_cons, hc]
    · have hb : (k == k') = false := by simpa using hk
      by_cases hc : k' = cid
      · simp only [List.map_cons, hc, if_true, List.lookup_cons]
        rw [← hc, hb]
        simpa [hc] using ih
      · simp only [List.map_cons, hc, if_false, List.lookup_cons, hb]
        exact ih

/-- One run of the `forEach` callback, seen from the entry of cluster `id`. -/
theorem addCustomer_lookup (stats : List (Nat × ClusterTotals)) (customer : Customer)
    (id : Nat) :
    (addCustomer stats customer).lookup id = stepEntry id (stats.lookup id) customer := by
  unfold addCustomer stepEntry
  simp only []
  rw [show (fun entry : Nat × ClusterTotals =>
        if entry.1 = customer.predicted_cluster_id then
          (entry.1,
            { entry.2 with
              count := entry.2.count + 1
              totalMonetary := entry.2.totalMonetary + customer.rfm_values.MonetaryValue
              totalFrequency := entry.2.totalFrequency + customer.rfm_values.Frequency
              totalRecency := entry.2.totalRecency + customer.rfm_values.Recency })
        else entry)
      = (fun entry : Nat × ClusterTotals =>
        if entry.1 = customer.predicted_cluster_id then (entry.1, addTo customer entry.2)
        else entry) from rfl]
  rw [lookup_map_update]
  by_cases hn : (stats.lookup customer.predicted_cluster_id).isNone
  · rw [if_pos hn, List.lookup_append]
    by_cases hid : id = customer.predicted_cluster_id
    · subst hid
      rw [Option.isNone_iff_eq_none] at hn
      simp [hn, List.lookup_cons, newTotals]
    · have hb : (id == customer.predicted_cluster_id) = false := by simpa using hid
      simp [hid, List.lookup_cons, hb]
  · rw [if_neg hn]
    by_cases hid : id = customer.predicted_cluster_id
    · subst hid
      cases ht : stats.lookup customer.predicted_cluster_id with
      | none => simp [ht] at hn
      | some t => simp
    · simp [hid]

/-- The whole `results.forEach`, seen from the entry of cluster `id`. -/
theorem foldl_addCustomer_lookup (results : List Customer)
    (stats : List (Nat × ClusterTotals)) (id : Nat) :
    (results.foldl addCustomer stats).lookup id
      = results.foldl (stepEntry id) (stats.lookup id) := by
  induction results generalizing stats with
  | nil => rfl
  | cons c rs ih => rw [List.foldl_cons, List.foldl_cons, ih, addCustomer_lookup]

/-- What the `forEach` loop accumulates in the entry of cluster `id`: the entry exists
afterwards iff it existed before or some record belongs to the cluster, and its
count and totals grew by the number and the sums of the records of the cluster. -/
theorem foldl_stepEntry (id : Nat) (results : List Customer) (o : Option ClusterTotals) :
    ((results.foldl (stepEntry id) o).isSome
        ↔ o.isSome ∨ ∃ c ∈ results, c.predicted_cluster_id = id)
      ∧ ∀ t, results.foldl (stepEntry id) o = some t →
          t.count = (o.map fun e => e.count).getD 0
              + (results.filter fun c => c.predicted_cluster_id = id).length
            ∧ t.totalMonetary = (o.map fun e => e.totalMonetary).getD 0
              + ((results.filter fun c => c.predicted_cluster_id = id).map
                  fun c => c.rfm_values.MonetaryValue).sum
            ∧ t.totalFrequency = (o.map fun e => e.totalFrequency).getD 0
              + ((results.filter fun c => c.predicted_cluster_id = id).map
                  fun c => c.rfm_values.Frequency).sum
            ∧ t.totalRecency = (o.map fun e => e.totalRecency).getD 0
              + ((results.filter fun c => c.predicted_cluster_id = id).map
                  fun c => c.rfm_values.Recency).sum := by
  induction results generalizing o with
  | nil => 
    refine ⟨by simp, ?_⟩
    intro t ht
    simp only [List.foldl_nil] at ht
    subst ht
    simp
  | cons c rs ih =>
    rw [List.foldl_cons]
    by_cases h : id = c.predicted_cluster_id
    · have hs : stepEntry id o c = some (addTo c (o.getD (newTotals c))) := by
        simp [stepEntry, h]
      have hf : (List.filter (fun c => decide (c.predicted_cluster_id = id)) (c :: rs))
          = c :: List.filter (fun c => decide (c.predicted_cluster_id = id)) rs := by
        simp [List.filter_cons, h]
      rw [hs, hf]
      obtain ⟨ih1, ih2⟩ := ih (some (addTo c (o.getD (newTotals c))))
      refine ⟨?_, ?_⟩
      · rw [ih1]
        simp [h]
      · intro t ht
        obtain ⟨h1, h2, h3, h4⟩ := ih2 t ht
        rw [h1, h2, h3, h4]
        cases o with
        | none =>
          simp only [Option.map_some', Option.getD_some, Option.getD_none, Option.map_none',
            addTo, newTotals, List.length_cons, List.map_cons, List.sum_cons]
          refine ⟨by omega, by ring, by omega, by omega⟩
        | some e =>
          simp only [Option.map_some', Option.getD_some, addTo, List.length_cons,
            List.map_cons, List.sum_cons]
          refine ⟨by omega, by ring, by omega, by omega⟩
    · have hs : stepEntry id o c = o := by simp [stepEntry, h]
      have hf : (List.filter (fun c => decide (c.predicted_cluster_id = id)) (c :: rs))
          = List.filter (fun c => decide (c.predicted_cluster_id = id)) rs := by
        simp [List.filter_cons, Ne.symm h]
      rw [hs, hf]
      obtain ⟨ih1, ih2⟩ := ih o
      refine ⟨?_, ih2⟩
      rw [ih1]
      simp [Ne.symm h]

/-- The `forEach` callback never gives two entries to one cluster id. -/
theorem addCustomer_keys_nodup (stats : List (Nat × ClusterTotals)) (customer : Customer)
    (h : (stats.map Prod.fst).Nodup) :
    ((addCustomer stats customer).map Prod.fst).Nodup := by
  unfold addCustomer
  simp only []
  rw [List.map_map]
  have hfst : (Prod.fst ∘ fun entry : Nat × ClusterTotals =>
        if entry.1 = customer.predicted_cluster_id then
          (entry.1,
            { entry.2 with
              count := entry.2.count + 1
              totalMonetary := entry.2.totalMonetary + customer.rfm_values.MonetaryValue
              totalFrequency := entry.2.totalFrequency + customer.rfm_values.Frequency
              totalRecency := entry.2.totalRecency + customer.rfm_values.Recency })
        else entry) = Prod.fst := by
    funext e
    simp only [Function.comp]
    split <;> rfl
  rw [hfst]
  by_cases hn : (stats.lookup customer.predicted_cluster_id).isNone
  · rw [if_pos hn, List.map_append, List.nodup_append]
    refine ⟨h, by simp, ?_⟩
    rw [Option.isNone_iff_eq_none, List.lookup_eq_none_iff] at hn
    intro k hk hk'
    simp only [List.map_cons, List.map_nil, List.mem_singleton] at hk'
    subst hk'
    obtain ⟨p, hp, hpk⟩ := List.mem_map.1 hk
    have := hn p hp
    simp [hpk] at this
  · rw [if_neg hn]
    exact h

/-- The keys of `stats` stay distinct through the whole `forEach`. -/
theorem foldl_addCustomer_keys_nodup (results : List Customer)
    (stats : List (Nat × ClusterTotals)) (h : (stats.map Prod.fst).Nodup) :
    ((results.foldl addCustomer stats).map Prod.fst).Nodup := by
  induction results generalizing stats with
  | nil => exact h
  | cons c rs ih => exact ih _ (addCustomer_keys_nodup stats c h)

/-- C3: `getClusterStats` returns a map (no cluster id twice) that has an entry for a
cluster id iff some record has that `predicted_cluster_id`; in that entry `count` is
the number of records of the cluster, and `avgMonetary`, `avgFrequency` and
`avgRecency` are the sums of the field over those records divided by that number,
over the rationals. -/
theorem getClusterStats_spec (results : List Customer) (id : Nat) :
    ((getClusterStats results).map Prod.fst).Nodup
      ∧ (((getClusterStats results).lookup id).isSome
          ↔ ∃ c ∈ results, c.predicted_cluster_id = id)
      ∧ ∀ st, (getClusterStats results).lookup id = some st →
          st.count = (results.filter fun c => c.predicted_cluster_id = id).length
            ∧ st.avgMonetary
              = ((results.filter fun c => c.predicted_cluster_id = id).map
                  fun c => c.rfm_values.MonetaryValue).sum
                / ((results.filter fun c => c.predicted_cluster_id = id).length : Rat)
            ∧ st.avgFrequency
              = ((((results.filter fun c => c.predicted_cluster_id = id).map
                  fun c => c.rfm_values.Frequency).sum : Nat) : Rat)
                / ((results.filter fun c => c.predicted_cluster_id = id).length : Rat)
            ∧ st.avgRecency
              = ((((results.filter fun c => c.predicted_cluster_id = id).map
                  fun c => c.rfm_values.Recency).sum : Nat) : Rat)
                / ((results.filter fun c => c.predicted_cluster_id = id).length : Rat) := by
  have hl : (getClusterStats results).lookup id
      = ((results.foldl (stepEntry id) none).map withAverages) := by
    unfold getClusterStats
    rw [lookup_map_value, foldl_addCustomer_lookup]
    rfl
  obtain ⟨h1, h2⟩ := foldl_stepEntry id results none
  refine ⟨?_, ?_, ?_⟩
  · unfold getClusterStats
    rw [List.map_map]
    exact foldl_addCustomer_keys_nodup results [] List.nodup_nil
  · rw [hl, Option.isSome_map', h1]
    simp
  · intro st hst
    rw [hl, Option.map_eq_some'] at hst
    obtain ⟨t, ht, rfl⟩ := hst
    obtain ⟨c1, c2, c3, c4⟩ := h2 t ht
    simp only [Option.map_none', Option.getD_none, zero_add] at c1 c2 c3 c4
    simp only [withAverages]
    rw [c1, c2, c3, c4]
    exact ⟨rfl, rfl, rfl, rfl⟩

/-! ## Result presenter: export -/

/-- The header line of the export. -/
theorem headers_line :
    ",".intercalate headers
      = "Customer ID,Cluster ID,Cluster Name,Monetary Value,Frequency,Recency,Cluster Interpretation,Recommendations" := by
  decide

/-- Below `10^21` the method `toFixed2` does not consult the platform conversion. -/
theorem toFixed2_small (numToStr : Rat → String) (x : Rat) (hx : |x| < 10 ^ 21) :
    toFixed2 numToStr x
      = (if x < 0 then "-" else "")
        ++ (toString ((⌊|x| * 100 + 1 / 2⌋).toNat / 100) ++ "."
          ++ toString ((⌊|x| * 100 + 1 / 2⌋).toNat % 100 / 10)
          ++ toString ((⌊|x| * 100 + 1 / 2⌋).toNat % 10)) := by
  have h : ¬ (10 : Rat) ^ 21 ≤ |x| := not_le.2 hx
  simp only [toFixed2, if_neg h]

/-- The digits that `toFixed2` writes below `10^21`: a whole part and two decimal
digits, which together are the number of hundredths nearest to `|x|`. -/
theorem toFixed2_digits (numToStr : Rat → String) (x : Rat) (hx : |x| < 10 ^ 21) :
    ∃ whole d1 d2 : Nat, d1 < 10 ∧ d2 < 10
      ∧ |(|x| * 100 - ((100 * whole + 10 * d1 + d2 : Nat) : Rat))| ≤ 1 / 2
      ∧ toFixed2 numToStr x = (if x < 0 then "-" else "")
          ++ (toString whole ++ "." ++ toString d1 ++ toString d2) := by
  have hy : (0 : Rat) ≤ |x| * 100 + 1 / 2 := by positivity
  have hfloor : (0 : Int) ≤ ⌊|x| * 100 + 1 / 2⌋ := Int.floor_nonneg.2 hy
  refine ⟨(⌊|x| * 100 + 1 / 2⌋).toNat / 100, (⌊|x| * 100 + 1 / 2⌋).toNat % 100 / 10,
    (⌊|x| * 100 + 1 / 2⌋).toNat % 10, by omega, by omega, ?_, toFixed2_small numToStr x hx⟩
  have hn : 100 * ((⌊|x| * 100 + 1 / 2⌋).toNat / 100)
      + 10 * ((⌊|x| * 100 + 1 / 2⌋).toNat % 100 / 10) + (⌊|x| * 100 + 1 / 2⌋).toNat % 10
      = (⌊|x| * 100 + 1 / 2⌋).toNat := by omega
  rw [hn]
  have hcast : (((⌊|x| * 100 + 1 / 2⌋).toNat : Nat) : Rat) = ((⌊|x| * 100 + 1 / 2⌋ : Int) : Rat) := by
    have : (((⌊|x| * 100 + 1 / 2⌋).toNat : Nat) : Int) = ⌊|x| * 100 + 1 / 2⌋ :=
      Int.toNat_of_nonneg hfloor
    exact_mod_cast congrArg (fun z : Int => (z : Rat)) this
  rw [hcast]
  have h1 : ((⌊|x| * 100 + 1 / 2⌋ : Int) : Rat) ≤ |x| * 100 + 1 / 2 := Int.floor_le _
  have h2 : |x| * 100 + 1 / 2 < ((⌊|x| * 100 + 1 / 2⌋ : Int) : Rat) + 1 :=
    Int.lt_floor_add_one _
  rw [abs_le]
  constructor <;> linarith

/-- Up to `2^53` an integer is written with its decimal digits. -/
theorem numberText_small (numToStr : Rat → String) (n : Nat) (hn : n ≤ 2 ^ 53) :
    numberText numToStr n = toString n := by
  simp only [numberText, if_pos hn]

/-- The loop of `Array.prototype.join` as a left fold. -/
theorem intercalate_go_eq_foldl (sep : String) (l : List String) (acc : String) :
    String.intercalate.go acc sep l = l.foldl (fun doc row => doc ++ sep ++ row) acc := by
  induction l generalizing acc with
  | nil => rfl
  | cons a l ih => rw [String.intercalate.go, List.foldl_cons, ih]

/-- The export is the header line followed, for each record of the exported array in
order, by a line break and the row of the record. -/
theorem downloadCSV_eq_foldl (numToStr : Rat → String) (results : List Customer)
    (dataToDownload : Option (List Customer)) :
    downloadCSV numToStr results dataToDownload
      = ((dataToDownload.getD results).map fun c =>
            ",".intercalate (csvRow numToStr c)).foldl
          (fun doc row => doc ++ "\n" ++ row)
          "Customer ID,Cluster ID,Cluster Name,Monetary Value,Frequency,Recency,Cluster Interpretation,Recommendations" := by
  simp only [downloadCSV, List.map_cons, List.map_map, String.intercalate, headers_line,
    intercalate_go_eq_foldl]
  rfl

/-- C6 (as stated, refuted): for a record with `MonetaryValue` `10^21`, for which
`ToString` gives `1e+21`, the monetary cell of the row is `1e+21`, not a number with
two decimal places. -/
theorem downloadCSV_row_exponent :
    toFixed2 (fun _ => "1e+21") (10 ^ 21) = "1e+21"
      ∧ ",".intercalate
          (csvRow (fun _ => "1e+21")
            ⟨"C1", 3, "Champions & VIPs", ⟨10 ^ 21, 10, 2⟩, "...", ["a", "b"]⟩)
        = "C1,3,Champions & VIPs,1e+21,10,2,\"...\",\"a; b\""
      ∧ ",".intercalate
          (csvRow (fun _ => "1e+21")
            ⟨"C1", 3, "Champions & VIPs", ⟨10 ^ 21, 10, 2⟩, "...", ["a", "b"]⟩)
        ≠ "C1,3,Champions & VIPs,1000000000000000000000.00,10,2,\"...\",\"a; b\"" := by
  decide!

/-- C6 (amended): the export is the header line followed by one row per record of the
exported array, in order; for a record whose `MonetaryValue` has magnitude below
`10^21` and whose `predicted_cluster_id`, `Frequency` and `Recency` are at most
`2^53`, the row is, joined by commas and in this order, `customer_id`,
`predicted_cluster_id`, `cluster_name`, `MonetaryValue` with two decimal digits (the
nearest number of hundredths), `Frequency`, `Recency`, the interpretation between
double quotes, and the recommendations joined by `; ` between double quotes; the
record `C1` of the specification gives the row
`C1,3,Champions & VIPs,1234.50,10,2,"...","a; b"`. -/
theorem downloadCSV_rows (numToStr : Rat → String) (results : List Customer)
    (dataToDownload : Option (List Customer)) :
    downloadCSV numToStr results dataToDownload
        = ((dataToDownload.getD results).map fun c =>
              ",".intercalate (csvRow numToStr c)).foldl
            (fun doc row => doc ++ "\n" ++ row)
            "Customer ID,Cluster ID,Cluster Name,Monetary Value,Frequency,Recency,Cluster Interpretation,Recommendations"
      ∧ (∀ customer : Customer,
          |customer.rfm_values.MonetaryValue| < 10 ^ 21 →
          customer.predicted_cluster_id ≤ 2 ^ 53 →
          customer.rfm_values.Frequency ≤ 2 ^ 53 →
          customer.rfm_values.Recency ≤ 2 ^ 53 →
          ∃ whole d1 d2 : Nat, d1 < 10 ∧ d2 < 10
            ∧ |(|customer.rfm_values.MonetaryValue| * 100
                  - ((100 * whole + 10 * d1 + d2 : Nat) : Rat))| ≤ 1 / 2
            ∧ ",".intercalate (csvRow numToStr customer)
              = customer.customer_id ++ "," ++ toString customer.predicted_cluster_id
                ++ "," ++ customer.cluster_name
                ++ "," ++ ((if customer.rfm_values.MonetaryValue < 0 then "-" else "")
                    ++ (toString whole ++ "." ++ toString d1 ++ toString d2))
                ++ "," ++ toString customer.rfm_values.Frequency
                ++ "," ++ toString customer.rfm_values.Recency
                ++ "," ++ ("\"" ++ customer.cluster_interpretation ++ "\"")
                ++ "," ++ ("\"" ++ "; ".intercalate customer.cluster_recommendations
                    ++ "\""))
      ∧ ",".intercalate
          (csvRow numToStr
            ⟨"C1", 3, "Champions & VIPs", ⟨2469 / 2, 10, 2⟩, "...", ["a", "b"]⟩)
        = "C1,3,Champions & VIPs,1234.50,10,2,\"...\",\"a; b\"" := by
  have hrow : ∀ customer : Customer,
      ",".intercalate (csvRow numToStr customer)
        = customer.customer_id ++ "," ++ numberText numToStr customer.predicted_cluster_id
          ++ "," ++ customer.cluster_name
          ++ "," ++ toFixed2 numToStr customer.rfm_values.MonetaryValue
          ++ "," ++ numberText numToStr customer.rfm_values.Frequency
          ++ "," ++ numberText numToStr customer.rfm_values.Recency
          ++ "," ++ ("\"" ++ customer.cluster_interpretation ++ "\"")
          ++ "," ++ ("\"" ++ "; ".intercalate customer.cluster_recommendations ++ "\"") :=
    fun _ => rfl
  refine ⟨downloadCSV_eq_foldl numToStr results dataToDownload, ?_, ?_⟩
  · intro customer hm hc hf hr
    obtain ⟨whole, d1, d2, h1, h2, h3, h4⟩ :=
      toFixed2_digits numToStr customer.rfm_values.MonetaryValue hm
    refine ⟨whole, d1, d2, h1, h2, h3, ?_⟩
    rw [hrow, h4, numberText_small _ _ hc, numberText_small _ _ hf,
      numberText_small _ _ hr]
  · have hm : |((2469 / 2 : Rat))| < 10 ^ 21 := by decide!
    rw [hrow, toFixed2_small numToStr _ hm, numberText_small _ _ (by decide),
      numberText_small _ _ (by decide), numberText_small _ _ (by decide)]
    decide!

/-- Witness for C6 (amended): the record `C1` of the specification. -/
theorem downloadCSV_rows_witness :
    ∃ whole d1 d2 : Nat, d1 < 10 ∧ d2 < 10
      ∧ |(|(2469 / 2 : Rat)| * 100 - ((100 * whole + 10 * d1 + d2 : Nat) : Rat))| ≤ 1 / 2
      ∧ ",".intercalate
          (csvRow (fun _ => "")
            ⟨"C1", 3, "Champions & VIPs", ⟨2469 / 2, 10, 2⟩, "...", ["a", "b"]⟩)
        = "C1" ++ "," ++ toString 3 ++ "," ++ "Champions & VIPs"
          ++ "," ++ ((if (2469 / 2 : Rat) < 0 then "-" else "")
              ++ (toString whole ++ "." ++ toString d1 ++ toString d2))
          ++ "," ++ toString 10 ++ "," ++ toString 2
          ++ "," ++ ("\"" ++ "..." ++ "\"")
          ++ "," ++ ("\"" ++ "; ".intercalate ["a", "b"] ++ "\"") :=
  (downloadCSV_rows (fun _ => "") [] none).2.1
    ⟨"C1", 3, "Champions & VIPs", ⟨2469 / 2, 10, 2⟩, "...", ["a", "b"]⟩
    (by decide!) (by decide) (by decide) (by decide)

/-- C10: for the empty record set `getClusterStats` returns the empty map,
`filteredCustomers` is empty for every search term, pinned cluster and sort setting
(so "No customers found" is rendered), and the export is the header line alone. -/
theorem empty_results :
    getClusterStats [] = []
      ∧ (∀ (lower : String → String) (searchTerm : String) (selectedCluster : Option Nat)
          (sortBy sortOrder : String),
          filteredCustomers lower [] searchTerm selectedCluster sortBy sortOrder = []
            ∧ noCustomersFound
                (filteredCustomers lower [] searchTerm selectedCluster sortBy sortOrder)
              = true)
      ∧ (∀ numToStr : Rat → String, downloadCSV numToStr [] none
        = "Customer ID,Cluster ID,Cluster Name,Monetary Value,Frequency,Recency,Cluster Interpretation,Recommendations")
      ∧ (∀ numToStr : Rat → String, downloadCSV numToStr [] (some [])
        = "Customer ID,Cluster ID,Cluster Name,Monetary Value,Frequency,Recency,Cluster Interpretation,Recommendations") := by
  refine ⟨rfl, fun _ _ _ _ _ => ⟨rfl, rfl⟩, fun _ => ?_, fun _ => ?_⟩
  · rw [downloadCSV_eq_foldl]; rfl
  · rw [downloadCSV_eq_foldl]; rfl

/-- Witness for C4: three records, search term `123`, sorted by `monetary` in
descending order, with the ASCII fold for `lower`. -/
theorem filteredCustomers_sorted_witness :
    (filteredCustomers toLowerCase
        [⟨"C1", 3, "Champions & VIPs", ⟨2469 / 2, 10, 2⟩, "...", ["a", "b"]⟩,
          ⟨"a123", 1, "At-Risk & Dormant", ⟨10, 1, 200⟩, "", []⟩,
          ⟨"B1234", 0, "Loyal & Engaged", ⟨5000, 7, 30⟩, "", []⟩]
        "123" none "monetary" "desc").Pairwise
      (fun a b => b.rfm_values.MonetaryValue ≤ a.rfm_values.MonetaryValue) :=
  ((filteredCustomers_sorted toLowerCase
        [⟨"C1", 3, "Champions & VIPs", ⟨2469 / 2, 10, 2⟩, "...", ["a", "b"]⟩,
          ⟨"a123", 1, "At-Risk & Dormant", ⟨10, 1, 200⟩, "", []⟩,
          ⟨"B1234", 0, "Loyal & Engaged", ⟨5000, 7, 30⟩, "", []⟩]
        "123" none "monetary" "desc").2.2 rfl).2.2.1 rfl

/-! ## Upload transport: state and network failures -/

/-- The outcome of the outer `try` on a response that is not ok is an error. -/
theorem tryUpload_not_ok (toStr : Json → String) (status : Nat)
    (body : Except String Json) (h : responseOk status = false) :
    tryUpload toStr (.response status body)
      = .error (errorMessage toStr status body) := by
  simp [tryUpload, h]

/-- The outcome of the outer `try` on an ok response is the outcome of `json()`. -/
theorem tryUpload_ok (toStr : Json → String) (status : Nat)
    (body : Except String Json) (h : responseOk status = true) :
    tryUpload toStr (.response status body) = body := by
  simp [tryUpload, h]

/-- C11: whatever the request did, `handleFileUpload` ends with `isLoading = false`;
`segmentationResults` is the parsed payload after an ok response whose body parses,
and is unchanged after a response that is not ok (whatever its body), after a
rejected `fetch`, and after an ok response whose body does not parse. -/
theorem handleFileUpload_state (toStr : Json → String) (s : AppState) :
    (∀ r, (handleFileUpload toStr s r).1.isLoading = false)
      ∧ (∀ status data, responseOk status = true →
          (handleFileUpload toStr s (.response status (.ok data))).1.segmentationResults
            = some data)
      ∧ (∀ status body, responseOk status = false →
          (handleFileUpload toStr s (.response status body)).1.segmentationResults
            = s.segmentationResults)
      ∧ (∀ message,
          (handleFileUpload toStr s (.rejected message)).1.segmentationResults
            = s.segmentationResults)
      ∧ (∀ status parseError, responseOk status = true →
          (handleFileUpload toStr s
              (.response status (.error parseError))).1.segmentationResults
            = s.segmentationResults) := by
  refine ⟨?_, ?_, ?_, ?_, ?_⟩
  · intro r
    unfold handleFileUpload
    cases tryUpload toStr r <;> rfl
  · intro status data h
    simp only [handleFileUpload, tryUpload_ok toStr status _ h]
  · intro status body h
    simp only [handleFileUpload, tryUpload_not_ok toStr status body h]
  · intro message
    simp only [handleFileUpload, tryUpload]
  · intro status parseError h
    simp only [handleFileUpload, tryUpload_ok toStr status _ h]

/-- Witness for C11: a 200 response with payload `[]` received while an earlier
payload is displayed. -/
theorem handleFileUpload_state_witness :
    (handleFileUpload (fun _ => "") ⟨some (.arr [.null]), false⟩
        (.response 200 (.ok (.arr [])))).1.segmentationResults = some (.arr [])
      ∧ (handleFileUpload (fun _ => "") ⟨some (.arr [.null]), false⟩
        (.response 200 (.ok (.arr [])))).1.isLoading = false :=
  ⟨(handleFileUpload_state (fun _ => "") ⟨some (.arr [.null]), false⟩).2.1 200
      (.arr []) (by decide),
    (handleFileUpload_state (fun _ => "") ⟨some (.arr [.null]), false⟩).1 _⟩

/-- C12 (as stated, refuted): two rejections of `fetch` with different error messages
surface different texts, each the message of its error and neither the generic
text. -/
theorem handleFileUpload_rejected_depends :
    (handleFileUpload (fun _ => "") ⟨none, false⟩ (.rejected "Failed to fetch")).2
        = .error "Failed to fetch"
      ∧ (handleFileUpload (fun _ => "") ⟨none, false⟩ (.rejected "Load failed")).2
        = .error "Load failed"
      ∧ (handleFileUpload (fun _ => "") ⟨none, false⟩ (.rejected "Failed to fetch")).2
        ≠ (handleFileUpload (fun _ => "") ⟨none, false⟩ (.rejected "Load failed")).2
      ∧ (handleFileUpload (fun _ => "") ⟨none, false⟩ (.rejected "Failed to fetch")).2
        ≠ .error "An error occurred while processing the file" := by
  decide

/-- C12 (amended): when `fetch` rejects, the error notification carries the message
of the underlying error when that message is not empty, and the fixed text
"An error occurred while processing the file" when it is empty. -/
theorem handleFileUpload_rejected (toStr : Json → String) (s : AppState)
    (message : String) :
    (handleFileUpload toStr s (.rejected message)).2
      = .error (if message = "" then "An error occurred while processing the file"
                else message) := by
  simp only [handleFileUpload, tryUpload]
  by_cases h : message = ""
  · simp [h]
  · simp [h]

/-! ## Upload gate: acceptance -/

/-- C13: `validateFile` accepts iff a file is provided, its type is `text/csv` or its
lower-cased name ends with `.csv`, and its size is at most 10 * 1024 * 1024 bytes;
a file of exactly that size with an accepted format is accepted, and so is a file of
type `text/csv` within the size limit whatever its name. -/
theorem validateFile_accepts_iff :
    (∀ f : Option File,
        (validateFile f).1 = true
          ↔ ∃ file, f = some file
              ∧ (file.type = "text/csv" ∨ endsWith (toLowerCase file.name) ".csv" = true)
              ∧ file.size ≤ 10 * 1024 * 1024)
      ∧ (∀ name type : String,
          (type = "text/csv" ∨ endsWith (toLowerCase name) ".csv" = true) →
          validateFile (some ⟨name, type, 10 * 1024 * 1024⟩) = (true, none))
      ∧ (∀ (name : String) (size : Nat), size ≤ 10 * 1024 * 1024 →
          validateFile (some ⟨name, "text/csv", size⟩) = (true, none)) := by
  have key : ∀ file : File,
      (file.type = "text/csv" ∨ endsWith (toLowerCase file.name) ".csv" = true) →
      file.size ≤ 10 * 1024 * 1024 → validateFile (some file) = (true, none) := by
    intro file hfmt hsize
    have hf : ¬ (file.type ≠ "text/csv" ∧ ¬ endsWith (toLowerCase file.name) ".csv") := by
      rintro ⟨h1, h2⟩
      rcases hfmt with h | h
      · exact h1 h
      · exact h2 h
    have hs : ¬ file.size > 10 * 1024 * 1024 := by omega
    simp only [validateFile, if_neg hf, if_neg hs]
  refine ⟨?_, ?_, ?_⟩
  · intro f
    constructor
    · intro h
      cases f with
      | none => simp [validateFile] at h
      | some file =>
        refine ⟨file, rfl, ?_, ?_⟩
        · by_contra hfmt
          have hf : file.type ≠ "text/csv"
              ∧ ¬ endsWith (toLowerCase file.name) ".csv" :=
            ⟨fun h1 => hfmt (Or.inl h1), fun h2 => hfmt (Or.inr h2)⟩
          simp only [validateFile, if_pos hf] at h
          exact absurd h (by decide)
        · by_contra hsize
          have hs : file.size > 10 * 1024 * 1024 := by omega
          by_cases hf : file.type ≠ "text/csv"
              ∧ ¬ endsWith (toLowerCase file.name) ".csv"
          · simp only [validateFile, if_pos hf] at h
            exact absurd h (by decide)
          · simp only [validateFile, if_neg hf, if_pos hs] at h
            exact absurd h (by decide)
    · rintro ⟨file, rfl, hfmt, hsize⟩
      rw [key file hfmt hsize]
  · intro name type hfmt
    exact key ⟨name, type, 10 * 1024 * 1024⟩ hfmt (le_refl _)
  · intro name size hsize
    exact key ⟨name, "text/csv", size⟩ (Or.inl rfl) hsize

/-- Witness for C13: `data.CSV` of exactly 10 MiB with an empty declared type. -/
theorem validateFile_accepts_iff_witness :
    validateFile (some ⟨"data.CSV", "", 10 * 1024 * 1024⟩) = (true, none) :=
  validateFile_accepts_iff.2.1 "data.CSV" "" (Or.inr (by decide))

/-! ## Result presenter: the sort callback on ties -/

/-- The two values that one sort key selects are of the same kind. -/
theorem sortValue_same_kind (sortBy : String) (a b : Customer) :
    (∃ s t, sortValue sortBy a = .text s ∧ sortValue sortBy b = .text t)
      ∨ (∃ q r, sortValue sortBy a = .number q ∧ sortValue sortBy b = .number r)
      ∨ (sortValue sortBy a = .undefined ∧ sortValue sortBy b = .undefined) := by
  unfold sortValue
  split_ifs
  · exact Or.inl ⟨_, _, rfl, rfl⟩
  · exact Or.inr (Or.inl ⟨_, _, rfl, rfl⟩)
  · exact Or.inr (Or.inl ⟨_, _, rfl, rfl⟩)
  · exact Or.inr (Or.inl ⟨_, _, rfl, rfl⟩)
  · exact Or.inr (Or.inl ⟨_, _, rfl, rfl⟩)
  · exact Or.inr (Or.inr ⟨rfl, rfl⟩)

/-- The callback on two values of one kind, in terms of `>` and `<`. -/
theorem compareFn_values (sortBy sortOrder : String) (a b : Customer) :
    compareFn sortBy sortOrder a b
      = if sortOrder = "asc" then
          (if (sortValue sortBy a).gt (sortValue sortBy b) then 1 else -1)
        else
          (if (sortValue sortBy a).lt (sortValue sortBy b) then 1 else -1) := rfl

/-- Neither `>` nor `<` holds between a value and itself. -/
theorem SortValue.gt_lt_self (v : SortValue) : v.gt v = false ∧ v.lt v = false := by
  cases v <;> simp [SortValue.gt, SortValue.lt]

/-- Between two distinct values of one kind, `>` holds in exactly one direction, and
so does `<`. -/
theorem SortValue.gt_lt_of_ne (sortBy : String) (a b : Customer)
    (h : sortValue sortBy a ≠ sortValue sortBy b) :
    (sortValue sortBy a).gt (sortValue sortBy b)
        = !(sortValue sortBy b).gt (sortValue sortBy a)
      ∧ (sortValue sortBy a).lt (sortValue sortBy b)
        = !(sortValue sortBy b).lt (sortValue sortBy a) := by
  rcases sortValue_same_kind sortBy a b with ⟨s, t, hs, ht⟩ | ⟨q, r, hq, hr⟩ | ⟨ha, hb⟩
  · rw [hs, ht] at h ⊢
    have hne : s ≠ t := fun e => h (by rw [e])
    rcases lt_trichotomy s t with hlt | heq | hgt
    · simp [SortValue.gt, SortValue.lt, hlt, not_lt_of_gt hlt]
    · exact absurd heq hne
    · simp [SortValue.gt, SortValue.lt, hgt, not_lt_of_gt hgt]
  · rw [hq, hr] at h ⊢
    have hne : q ≠ r := fun e => h (by rw [e])
    rcases lt_trichotomy q r with hlt | heq | hgt
    · simp [SortValue.gt, SortValue.lt, hlt, not_lt_of_gt hlt]
    · exact absurd heq hne
    · simp [SortValue.gt, SortValue.lt, hgt, not_lt_of_gt hgt]
  · rw [ha, hb] at h
    exact absurd rfl h

/-- C14: the sort callback never returns 0; on two records whose values under the
sort key are equal (a record and itself included) it returns -1 in both directions,
and on two records whose values differ the two directions are opposite. -/
theorem compareFn_ties (sortBy sortOrder : String) (a b : Customer) :
    compareFn sortBy sortOrder a b ≠ 0
      ∧ compareFn sortBy sortOrder a a = -1
      ∧ (sortValue sortBy a = sortValue sortBy b →
          compareFn sortBy sortOrder a b = -1 ∧ compareFn sortBy sortOrder b a = -1)
      ∧ (sortValue sortBy a ≠ sortValue sortBy b →
          compareFn sortBy sortOrder a b = - compareFn sortBy sortOrder b a) := by
  have htie : ∀ x y : Customer, sortValue sortBy x = sortValue sortBy y →
      compareFn sortBy sortOrder x y = -1 := by
    intro x y hxy
    rw [compareFn_values, hxy, (SortValue.gt_lt_self _).1, (SortValue.gt_lt_self _).2]
    simp
  refine ⟨?_, htie a a rfl, fun h => ⟨htie a b h, htie b a h.symm⟩, ?_⟩
  · rw [compareFn_values]
    split_ifs <;> decide
  · intro h
    obtain ⟨hg, hl⟩ := SortValue.gt_lt_of_ne sortBy a b h
    rw [compareFn_values, compareFn_values, hg, hl]
    by_cases ho : sortOrder = "asc"
    · simp only [if_pos ho]
      cases (sortValue sortBy b).gt (sortValue sortBy a) <;> simp
    · simp only [if_neg ho]
      cases (sortValue sortBy b).lt (sortValue sortBy a) <;> simp

/-- Witness for C14: two records with the same `MonetaryValue`, key `monetary`,
order `asc`. -/
theorem compareFn_ties_witness :
    compareFn "monetary" "asc" ⟨"A", 0, "", ⟨5, 1, 1⟩, "", []⟩ ⟨"B", 1, "", ⟨5, 2, 3⟩, "", []⟩
        = -1
      ∧ compareFn "monetary" "asc" ⟨"B", 1, "", ⟨5, 2, 3⟩, "", []⟩
          ⟨"A", 0, "", ⟨5, 1, 1⟩, "", []⟩ = -1 :=
  (compareFn_ties "monetary" "asc" ⟨"A", 0, "", ⟨5, 1, 1⟩, "", []⟩
    ⟨"B", 1, "", ⟨5, 2, 3⟩, "", []⟩).2.2.1 rfl

end CustomerSegmentation
